import Mathlib

/-!
Shallow embedding of `src/opendlv-device-can-raw.cpp` (opendlv-device-can-raw).

The program is one `main` function.  Its parts are embedded here as pure functions:

* the channel endpoint setup loop (source lines 145-192) is `setup`;
* the body of the capture loop (lines 213-265) is `iteration`, built from `processDevice`,
  `canDataValue` (the `union CANData` and `memcpy`) and `route` (the routing step);
* the recording start-up decision (lines 86-99) is `startup`;
* the delegate handed to the `OD4Session` (lines 102-134) is `callback`;
* the lambda `getYYYYMMDD_HHMMSS` (lines 64-85) is `getYYYYMMDD_HHMMSS`.

Calls into the operating system (socket, ioctl, bind, select, read, the clock, the outcome of
file operations) are inputs of the embedded functions; a call on a negative descriptor
fails whatever the input says.  A `memcpy` or `strcpy` past the end of its array has no
defined result.  File operations and outbound
messages are outputs, listed in program order as `Effect`s.  Console output is left out.
What the program takes from the headers it includes (message identifiers, the decoder of
the control message, the string splitter) is the parameter `Library`.
The capture loop and the delegate are embedded as sequential steps on the shared recording
state; the interleaving of the two threads is outside the embedding.
-/

namespace CanRaw

/-! ## Data model -/

/-- The message `cluon::data::TimeStamp`. -/
structure TimeStamp where
  seconds : Int
  microseconds : Int
deriving DecidableEq, Repr

/-- The C `struct timeval` filled in by `ioctl(SIOCGSTAMP)`. -/
structure timeval where
  tv_sec : Int
  tv_usec : Int
deriving DecidableEq, Repr

/-- The broken-down local time `struct tm` as returned by `localtime`. -/
structure Tm where
  tm_year : Int
  tm_mon : Int
  tm_mday : Int
  tm_hour : Int
  tm_min : Int
  tm_sec : Int
deriving DecidableEq, Repr

/-- The SocketCAN `struct can_frame`: a 32-bit identifier, the payload length `can_dlc`
and the payload array `data[8]`, given as a list of byte values. -/
structure can_frame where
  can_id : Nat
  can_dlc : Nat
  data : List Nat
deriving DecidableEq, Repr

/-- The message `opendlv::proxy::RawUInt64CANFrame` with its three fields. -/
structure RawUInt64CANFrame where
  canID : Nat
  length : Nat
  data : Nat
deriving DecidableEq, Repr

/-- The value of `sizeof(struct can_frame)` on Linux. -/
def sizeofCanFrame : Int := 16

/-- Conversion of a C `int` to `uint32_t`, as done by `static_cast<uint32_t>` and by the
initialisation of a `uint32_t` variable from an `int` expression. -/
def toUInt32 (x : Int) : Nat := (x % 4294967296).toNat

/-! ## The union `CANData` -/

/-- The call `std::memcpy(dst, src, n)` on byte arrays: the first `n` bytes of `dst` are
replaced by the first `n` bytes of `src`.  A copy that would run past the end of either
array has no defined result and gives `none`. -/
def memcpy (dst src : List Nat) (n : Nat) : Option (List Nat) :=
  if n ≤ dst.length ∧ n ≤ src.length then some (src.take n ++ dst.drop n) else none

/-- The `uint64_t` member of a union read back from the bytes of its `char[8]` member on a
little-endian host (the hosts SocketCAN runs on): byte `i` has weight `256 ^ i`. -/
def uint64OfBytes (bytes : List Nat) : Nat :=
  bytes.foldr (fun b acc => b + 256 * acc) 0

/-- The bytes of a freshly declared `union CANData`: its member `value` is initialised
to `0`, so all eight bytes are zero. -/
def CANData_init : List Nat := List.replicate 8 0

/-- Lines 224-228: a fresh `canData`, then
`std::memcpy(canData.bytes, frame.data, frame.can_dlc)`, then `canData.value`. -/
def canDataValue (frame : can_frame) : Option Nat :=
  (memcpy CANData_init frame.data frame.can_dlc).map uint64OfBytes

/-- Lines 237-240: the record built from the frame that was read. -/
def rawUInt64CANFrame (frame : can_frame) : Option RawUInt64CANFrame :=
  (canDataValue frame).map fun value =>
    { canID := frame.can_id, length := frame.can_dlc, data := value }

/-! ## The file name of a recording -/

/-- Lines 64-85: the lambda `getYYYYMMDD_HHMMSS`, applied to the broken-down local time
that `localtime` returned.  The six quantities are `uint32_t` variables; `operator<<`
prints them in decimal. -/
def getYYYYMMDD_HHMMSS (tm : Tm) : String :=
  let year := toUInt32 (1900 + tm.tm_year)
  let month := toUInt32 (1 + tm.tm_mon)
  let dayOfMonth := toUInt32 tm.tm_mday
  let hours := toUInt32 tm.tm_hour
  let minutes := toUInt32 tm.tm_min
  let seconds := toUInt32 tm.tm_sec
  toString year ++ "-" ++ (if month < 10 then "0" else "") ++ toString month
    ++ "-" ++ (if dayOfMonth < 10 then "0" else "") ++ toString dayOfMonth
    ++ "_" ++ (if hours < 10 then "0" else "") ++ toString hours
    ++ (if minutes < 10 then "0" else "") ++ toString minutes
    ++ (if seconds < 10 then "0" else "") ++ toString seconds

/-- Lines 89 and 113: the expression
`(REC.size() != 0) ? REC + RECSUFFIX : (getYYYYMMDD_HHMMSS() + RECSUFFIX + ".rec")`. -/
def recFileName (REC RECSUFFIX : String) (tm : Tm) : String :=
  if REC ≠ "" then REC ++ RECSUFFIX else getYYYYMMDD_HHMMSS tm ++ RECSUFFIX ++ ".rec"

/-! ## Recording sink, envelopes and effects -/

/-- What the encoders of the included message library put into an envelope.  The encoders
are not part of the program; an encoded `RawUInt64CANFrame` is represented by the message
it encodes, any other content by its bytes. -/
inductive Payload where
  | encoded (msg : RawUInt64CANFrame)
  | raw (bytes : List Nat)
deriving DecidableEq, Repr

/-- The message `cluon::data::Envelope` with the fields the program reads or sets. -/
structure Envelope where
  dataType : Int
  serializedData : Payload
  sent : TimeStamp
  sampleTimeStamp : TimeStamp
  senderStamp : Nat
deriving DecidableEq, Repr

/-- What the program does to the outside world, in program order.  `write path envelope`
stands for `recFile->write` of the bytes `cluon::serializeEnvelope(envelope)` to the
stream opened on `path`; `send` is `od4->send(msg, sampleTimeStamp, senderStamp)`. -/
inductive Effect where
  | openTrunc (path : String)
  | write (path : String) (envelope : Envelope)
  | flush (path : String)
  | close (path : String)
  | send (msg : RawUInt64CANFrame) (sampleTimeStamp : TimeStamp) (senderStamp : Nat)
deriving DecidableEq, Repr

/-- A `std::fstream` object: the path it was constructed with, whether a file is open
behind it, and the result of `good()`. -/
structure FStream where
  path : String
  isOpen : Bool
  good : Bool
deriving DecidableEq, Repr

/-- The expression `new std::fstream(path, out|binary|trunc)`; `ok` tells whether the
file could be opened.  A failed open leaves the stream closed and not good. -/
def FStream.create (path : String) (ok : Bool) : FStream :=
  { path := path, isOpen := ok, good := ok }

/-- The call `write` followed by `flush` on a stream; `writeOk` and `flushOk` tell
whether the operating system accepted them.  A failure clears `good()`, and a stream
that is not good ignores further output. -/
def FStream.writeFlush (f : FStream) (writeOk flushOk : Bool) : FStream :=
  { f with good := f.good && writeOk && flushOk }

/-- Destruction of the stream a `unique_ptr` owned (by `reset` or by assigning `nullptr`):
the destructor closes the file if it is still open. -/
def destroy : Option FStream → List Effect
  | some f => if f.isOpen then [Effect.close f.path] else []
  | none => []

/-- The variables shared by the capture loop and the delegate: the `unique_ptr` `recFile`
(`none` is `nullptr`) and the string `nameOfRecFile`. -/
structure RecState where
  recFile : Option FStream
  nameOfRecFile : String
deriving DecidableEq, Repr

/-- The condition `recFile && recFile->good()`. -/
def RecState.sinkGood (s : RecState) : Bool :=
  match s.recFile with
  | some f => f.good
  | none => false

/-- What the program takes from the headers it includes: the two message identifiers,
the field `command` of `cluon::extractMessage<cluon::data::RecorderCommand>(envelope)`,
and `stringtoolbox::split`. -/
structure Library where
  RecorderCommand_ID : Int
  RawUInt64CANFrame_ID : Int
  extractCommand : Envelope → Int
  split : String → Char → List String

/-! ## The capture loop -/

/-- One entry of `listOfCANDevices`. -/
structure CAN_CHANNEL where
  name : String
  ID : Nat
  can_ifindex : Int
  socketCAN : Int
deriving DecidableEq, Repr

/-- What the operating system answers for one device in one pass of the loop at line 213:
whether `FD_ISSET` holds after `select`, the return value of `read`, the frame buffer after
the read, the return value and result of `ioctl(SIOCGSTAMP)`, the clock value used when
that fails, the clock value for `envelope.sent`, and whether a write and a flush to the
recording file succeed. -/
structure ReadOutcome where
  isSet : Bool
  nbytes : Int
  frame : can_frame
  stampRc : Int
  socketTimeStamp : timeval
  now : TimeStamp
  sentNow : TimeStamp
  writeOk : Bool
  flushOk : Bool
deriving DecidableEq, Repr

/-- Lines 242-262: the routing step for one record. -/
def route (lib : Library) (s : RecState) (msg : RawUInt64CANFrame)
    (sampleTimeStamp : TimeStamp) (canDevice : CAN_CHANNEL) (o : ReadOutcome) :
    RecState × List Effect :=
  match s.recFile with
  | some f =>
    if f.good then
      let envelope : Envelope :=
        { dataType := lib.RawUInt64CANFrame_ID
          serializedData := Payload.encoded msg
          sent := o.sentNow
          sampleTimeStamp := sampleTimeStamp
          senderStamp := canDevice.ID }
      ({ s with recFile := some (f.writeFlush o.writeOk o.flushOk) },
        [Effect.write f.path envelope, Effect.flush f.path])
    else
      (s, [Effect.send msg sampleTimeStamp canDevice.ID])
  | none => (s, [Effect.send msg sampleTimeStamp canDevice.ID])

/-- Lines 214-264: the body of the loop over `listOfCANDevices` for one device.  The
result is `none` when the `memcpy` has no defined result. -/
def processDevice (lib : Library) (canDevice : CAN_CHANNEL) (o : ReadOutcome)
    (s : RecState) : Option (RecState × List Effect) :=
  if o.isSet then
    if o.nbytes > 0 ∧ o.nbytes = sizeofCanFrame then
      let socketTimeStamp : timeval :=
        if o.stampRc ≠ 0 then { tv_sec := o.now.seconds, tv_usec := o.now.microseconds }
        else o.socketTimeStamp
      match rawUInt64CANFrame o.frame with
      | none => none
      | some msg =>
        let sampleTimeStamp : TimeStamp :=
          { seconds := socketTimeStamp.tv_sec, microseconds := socketTimeStamp.tv_usec }
        some (route lib s msg sampleTimeStamp canDevice o)
    else some (s, [])
  else some (s, [])

/-- Lines 213-265: one pass over `listOfCANDevices`, each device paired with what the
operating system answers for it. -/
def iteration (lib : Library) :
    List (CAN_CHANNEL × ReadOutcome) → RecState → Option (RecState × List Effect)
  | [], s => some (s, [])
  | (canDevice, o) :: rest, s =>
    match processDevice lib canDevice o s with
    | none => none
    | some (s1, e1) =>
      match iteration lib rest s1 with
      | none => none
      | some (s2, e2) => some (s2, e1 ++ e2)

/-! ## Start-up and the recording delegate -/

/-- The command line options the program reads. -/
structure Config where
  VERBOSE : Bool
  CAN_CHANNELS : String
  REMOTE : Bool
  REC : String
  RECSUFFIX : String
deriving DecidableEq, Repr

/-- Lines 89-135: the recording state after start-up, whether the session was created
with the delegate, and the file operations performed.  `tm` is the local time at start-up
and `openOk` tells whether the file could be opened. -/
def startup (cfg : Config) (tm : Tm) (openOk : Bool) : RecState × Bool × List Effect :=
  let NAME_RECFILE := recFileName cfg.REC cfg.RECSUFFIX tm
  if cfg.REMOTE = false ∧ cfg.REC ≠ "" then
    ({ recFile := some (FStream.create NAME_RECFILE openOk), nameOfRecFile := "" },
      false, [Effect.openTrunc NAME_RECFILE])
  else
    ({ recFile := none, nameOfRecFile := "" }, true, [])

/-- What the delegate needs from outside when it runs: the local time, and whether a
file open, a write and a flush succeed. -/
structure CallbackOutcome where
  localtime : Tm
  openOk : Bool
  writeOk : Bool
  flushOk : Bool
deriving DecidableEq, Repr

/-- Lines 102-134: the delegate given to the `OD4Session`, run on one inbound envelope. -/
def callback (lib : Library) (REC RECSUFFIX : String) (envelope : Envelope)
    (o : CallbackOutcome) (s : RecState) : RecState × List Effect :=
  if lib.RecorderCommand_ID = envelope.dataType then
    let command := lib.extractCommand envelope
    if 1 = command then
      let closed : RecState × List Effect :=
        match s.recFile with
        | some f =>
          if f.good then
            ({ s with recFile := none }, [Effect.flush f.path, Effect.close f.path])
          else (s, [])
        | none => (s, [])
      let name := recFileName REC RECSUFFIX o.localtime
      ({ recFile := some (FStream.create name o.openOk), nameOfRecFile := name },
        closed.2 ++ [Effect.openTrunc name] ++ destroy closed.1.recFile)
    else if 2 = command then
      match s.recFile with
      | some f =>
        if f.good then
          ({ s with recFile := none }, [Effect.flush f.path, Effect.close f.path])
        else ({ s with recFile := none }, destroy (some f))
      | none => ({ s with recFile := none }, [])
    else (s, [])
  else
    match s.recFile with
    | some f =>
      if f.good then
        ({ s with recFile := some (f.writeFlush o.writeOk o.flushOk) },
          [Effect.write f.path envelope, Effect.flush f.path])
      else (s, [])
    | none => (s, [])

/-- The session hands an inbound envelope to the delegate only if it was created with
one (line 91 creates it without, line 101 with). -/
def onEnvelope (lib : Library) (cfg : Config) (hasDelegate : Bool) (envelope : Envelope)
    (o : CallbackOutcome) (s : RecState) : RecState × List Effect :=
  if hasDelegate then callback lib cfg.REC cfg.RECSUFFIX envelope o s else (s, [])

/-! ## Channel endpoint setup -/

/-- The C function `isspace` in the default locale. -/
def isspace (c : Char) : Bool :=
  c = ' ' || (9 ≤ c.toNat && c.toNat ≤ 13)

/-- The standard library function `std::stoi(str)`: leading white space is skipped, an
optional sign is read, then the longest run of decimal digits.  With no digit it throws
`std::invalid_argument`, with a value outside the range of `int` it throws
`std::out_of_range`; both are `none` here. -/
def stoi (str : String) : Option Int :=
  let s := str.data.dropWhile isspace
  let signed : Bool × List Char :=
    match s with
    | '-' :: r => (true, r)
    | '+' :: r => (false, r)
    | _ => (false, s)
  let digits := signed.2.takeWhile Char.isDigit
  if digits.isEmpty then none
  else
    let magnitude : Nat := digits.foldl (fun acc c => 10 * acc + (c.toNat - 48)) 0
    let value : Int := if signed.1 then -(magnitude : Int) else (magnitude : Int)
    if -2147483648 ≤ value ∧ value ≤ 2147483647 then some value else none

/-- What the operating system answers when one device is opened: the return value of
`socket`, the return values `ioctl(SIOCGIFINDEX)` and `bind` give on a valid descriptor,
and the interface index found. -/
structure OpenOutcome where
  socket : Int
  ioctl : Int
  ifr_ifindex : Int
  bind : Int
deriving DecidableEq, Repr

/-- How the setup loop ends: `main` returns `retCode`, or an exception of `std::stoi`
leaves `main`, or `strcpy` writes past the end of `ifr.ifr_name` and the behaviour is
undefined, or the loop finishes with `listOfCANDevices` and `maxSocketCAN`. -/
inductive SetupResult where
  | returned (retCode : Int)
  | thrown
  | undefined
  | done (listOfCANDevices : List CAN_CHANNEL) (maxSocketCAN : Int)
deriving DecidableEq, Repr

/-- The value of `IFNAMSIZ` in `linux/if.h`, the size of the array `ifr.ifr_name`. -/
def IFNAMSIZ : Nat := 16

/-- The C function `strlen` on `str.c_str()`: the number of bytes before the first NUL. -/
def c_strlen (str : String) : Nat :=
  (String.mk (str.data.takeWhile fun c => c ≠ Char.ofNat 0)).utf8ByteSize

/-- The return value of a system call on the descriptor `fd`: a negative `fd` is no
descriptor, the call fails (`EBADF`) and returns `-1`; on a valid descriptor it is the
`answer` of the operating system. -/
def onDescriptor (fd answer : Int) : Int :=
  if fd < 0 then -1 else answer

/-- The initial value of `retCode` (line 43), returned on the error paths of the setup. -/
def retCode : Int := 1

/-- Lines 147-192: the loop over the entries of `canChannels`.  `os k` is what the
operating system answers when a device is opened while `k` devices are already in
`listOfCANDevices`.  A negative result of `socket` only prints a message (lines 158-162)
and the loop body goes on: `strcpy(ifr.ifr_name, dev.name.c_str())` (line 168) copies the
name and its terminating NUL into an array of `IFNAMSIZ` bytes, then `ioctl` and `bind`
are called on the descriptor and return `retCode` on failure. -/
def setupLoop (lib : Library) (os : Nat → OpenOutcome) :
    List String → List CAN_CHANNEL → Int → SetupResult
  | [], listOfCANDevices, maxSocketCAN => SetupResult.done listOfCANDevices maxSocketCAN
  | canChannel :: rest, listOfCANDevices, maxSocketCAN =>
    match lib.split canChannel ':' with
    | [name, id] =>
      match stoi id with
      | none => SetupResult.thrown
      | some v =>
        if name ≠ "" then
          let o := os listOfCANDevices.length
          let socketCAN := o.socket
          let maxSocketCAN1 := if socketCAN > maxSocketCAN then socketCAN else maxSocketCAN
          if IFNAMSIZ < c_strlen name + 1 then SetupResult.undefined
          else if 0 ≠ onDescriptor socketCAN o.ioctl then SetupResult.returned retCode
          else if onDescriptor socketCAN o.bind < 0 then SetupResult.returned retCode
          else
            setupLoop lib os rest
              (listOfCANDevices ++
                [{ name := name, ID := toUInt32 v, can_ifindex := o.ifr_ifindex,
                   socketCAN := socketCAN }])
              maxSocketCAN1
        else setupLoop lib os rest listOfCANDevices maxSocketCAN
    | _ => setupLoop lib os rest listOfCANDevices maxSocketCAN

/-- Lines 137-192: the channel endpoint setup for the option `--can-channels`. -/
def setup (lib : Library) (os : Nat → OpenOutcome) (CAN_CHANNELS : String) : SetupResult :=
  setupLoop lib os (lib.split (CAN_CHANNELS ++ ",") ',') [] (-1)

/-! ## The included library, as far as the specification describes it -/

namespace stringtoolbox

/-- The tokens of a character list cut at every `delimiter`; `cur` holds the characters
of the token being read, last one first. -/
def splitChars (delimiter : Char) : List Char → List Char → List (List Char)
  | [], cur => [cur.reverse]
  | c :: cs, cur =>
    if c = delimiter then cur.reverse :: splitChars delimiter cs []
    else splitChars delimiter cs (c :: cur)

/-- Modelled from the spec: `stringtoolbox::split` is defined in the included header
`cluon-complete.hpp`, which is not among the sources.  The specification describes the
channel list as comma-separated pairs, each split on the colon into colon-separated
tokens: the string is cut at every delimiter, and a token may be empty. -/
def split (str : String) (delimiter : Char) : List String :=
  (splitChars delimiter str.data []).map String.mk

/-- Modelled from the spec: a second reading of `stringtoolbox::split`, in which a token
that is empty is left out.  The specification does not say which of the two readings the
included header implements. -/
def splitNonEmpty (str : String) (delimiter : Char) : List String :=
  (split str delimiter).filter fun token => token ≠ ""

end stringtoolbox

/-- Modelled from the spec: the message identifiers and the decoder of the included
headers are not among the sources, and the specification only says that control messages
have a well-known type and carry a command code.  For the concrete inputs below the
control type has the identifier `11` and the frame record `1105`, a control message
carries its command code as its one payload byte, and the splitter is the one the
specification describes. -/
def specLibrary : Library :=
  { RecorderCommand_ID := 11
    RawUInt64CANFrame_ID := 1105
    extractCommand := fun envelope =>
      match envelope.serializedData with
      | Payload.raw [c] => (c : Int)
      | _ => 0
    split := stringtoolbox.split }

/-- Modelled from the spec: as `specLibrary`, with the splitter that leaves empty tokens
out. -/
def specLibraryNonEmpty : Library :=
  { specLibrary with split := stringtoolbox.splitNonEmpty }

/-! ## Vocabulary of the properties -/

/-- Whether an effect delivers a record to the recording sink. -/
def Effect.toSink : Effect → Bool
  | Effect.write _ _ => true
  | _ => false

/-- Whether an effect delivers a record to the pub/sub session. -/
def Effect.toSession : Effect → Bool
  | Effect.send _ _ _ => true
  | _ => false

/-- The record an effect delivers, with the sender identity it is stamped with. -/
def Effect.emitted : Effect → Option (RawUInt64CANFrame × Nat)
  | Effect.write _ envelope =>
    match envelope.serializedData with
    | Payload.encoded msg => some (msg, envelope.senderStamp)
    | Payload.raw _ => none
  | Effect.send msg _ senderStamp => some (msg, senderStamp)
  | _ => none

/-- A device is ready and its read returned a whole frame. -/
def fullRead (p : CAN_CHANNEL × ReadOutcome) : Bool :=
  p.2.isSet && decide (p.2.nbytes = sizeofCanFrame)

/-- The sample time stamp the capture loop gives to a frame (lines 218-236): the stamp
of the socket, or the clock if `ioctl(SIOCGSTAMP)` failed. -/
def sampleTimeOf (o : ReadOutcome) : TimeStamp :=
  if o.stampRc ≠ 0 then { seconds := o.now.seconds, microseconds := o.now.microseconds }
  else { seconds := o.socketTimeStamp.tv_sec, microseconds := o.socketTimeStamp.tv_usec }

/-- The endpoint expected for one entry of the channel list when every entry of exactly
two tokens with an integer second token counts: the first token as name, the parsed
second token as sender identity. -/
def claimedEndpoint (lib : Library) (canChannel : String) : Option (String × Nat) :=
  match lib.split canChannel ':' with
  | [name, id] => (stoi id).map fun v => (name, toUInt32 v)
  | _ => none

/-- The broken-down local time of a calendar date and clock time. -/
def localTime (year month day hours minutes seconds : Nat) : Tm :=
  { tm_year := (year : Int) - 1900, tm_mon := (month : Int) - 1, tm_mday := day,
    tm_hour := hours, tm_min := minutes, tm_sec := seconds }

/-! ## Concrete inputs -/

/-- The operating system answers with success for every device: descriptor `3 + k` for the
device opened when `k` are already open. -/
def allSucceed (k : Nat) : OpenOutcome :=
  { socket := 3 + (k : Int), ioctl := 0, ifr_ifindex := 1 + (k : Int), bind := 0 }

/-- The time stamp 2024-03-01 10:05:03 UTC. -/
def t0 : TimeStamp := { seconds := 1709287503, microseconds := 0 }

/-- An inbound control message with the given command code, as `specLibrary` decodes it. -/
def controlEnvelope (command : Nat) : Envelope :=
  { dataType := 11, serializedData := Payload.raw [command], sent := t0,
    sampleTimeStamp := t0, senderStamp := 0 }

/-- An inbound message of another type. -/
def otherEnvelope : Envelope :=
  { dataType := 1030, serializedData := Payload.raw [1, 2, 3], sent := t0,
    sampleTimeStamp := t0, senderStamp := 7 }

/-- The delegate runs at local time 2024-03-01 10:05:03 and every file operation
succeeds. -/
def atTenOhFive : CallbackOutcome :=
  { localtime := localTime 2024 3 1 10 5 3, openOk := true, writeOk := true, flushOk := true }

/-- The recording state with an open, good sink on `path`. -/
def recordingTo (path : String) : RecState :=
  { recFile := some { path := path, isOpen := true, good := true }, nameOfRecFile := path }

/-- The recording state without a sink. -/
def noRecording : RecState := { recFile := none, nameOfRecFile := "" }

/-- The recording state whose sink on `path` is still open but no longer good. -/
def failedSink (path : String) : RecState :=
  { recFile := some { path := path, isOpen := true, good := false }, nameOfRecFile := path }

/-- The delegate runs at local time 2024-03-01 10:05:03 and the write to the recording
file fails. -/
def writeFails : CallbackOutcome :=
  { localtime := localTime 2024 3 1 10 5 3, openOk := true, writeOk := false,
    flushOk := true }

/-- The frame `id=0x100, len=2, bytes=[0xAA,0xBB]`; the six bytes behind the payload hold
other values. -/
def frameAABB : can_frame :=
  { can_id := 0x100, can_dlc := 2, data := [0xAA, 0xBB, 0x11, 0x22, 0x33, 0x44, 0x55, 0x66] }

/-- The frame `id=0x200, len=0`; the buffer still holds other values. -/
def frameEmpty : can_frame :=
  { can_id := 0x200, can_dlc := 0, data := [0x11, 0x22, 0x33, 0x44, 0x55, 0x66, 0x77, 0x88] }

/-- A device is ready and `read` returned the whole `frame`, stamped by the socket with
`t0`. -/
def readOf (frame : can_frame) : ReadOutcome :=
  { isSet := true, nbytes := 16, frame := frame, stampRc := 0,
    socketTimeStamp := { tv_sec := 1709287503, tv_usec := 0 }, now := t0, sentNow := t0,
    writeOk := true, flushOk := true }

/-- The endpoint of `can0:0`. -/
def can0 : CAN_CHANNEL := { name := "can0", ID := 0, can_ifindex := 1, socketCAN := 3 }

/-- The endpoint of `can1:1`. -/
def can1 : CAN_CHANNEL := { name := "can1", ID := 1, can_ifindex := 2, socketCAN := 4 }

/-- No option `--remote`, no option `--rec`, channels `can0:0,can1:1`. -/
def plainConfig : Config :=
  { VERBOSE := false, CAN_CHANNELS := "can0:0,can1:1", REMOTE := false, REC := "",
    RECSUFFIX := "" }

/-! ## The union `CANData`: value of the record -/

theorem uint64OfBytes_zeros (k : Nat) : uint64OfBytes (List.replicate k 0) = 0 := by
  induction k with
  | zero => rfl
  | succ k ih =>
    have e : uint64OfBytes (List.replicate (k + 1) 0)
        = 0 + 256 * uint64OfBytes (List.replicate k 0) := rfl
    rw [e, ih]

theorem uint64OfBytes_append_zeros (xs : List Nat) (k : Nat) :
    uint64OfBytes (xs ++ List.replicate k 0) = uint64OfBytes xs := by
  induction xs with
  | nil => rw [List.nil_append, uint64OfBytes_zeros]; rfl
  | cons x xs ih =>
    have e : uint64OfBytes (x :: xs ++ List.replicate k 0)
        = x + 256 * uint64OfBytes (xs ++ List.replicate k 0) := rfl
    rw [e, ih]
    rfl

theorem uint64OfBytes_eq_sum (xs : List Nat) :
    uint64OfBytes xs = ∑ i in Finset.range xs.length, xs.getD i 0 * 256 ^ i := by
  induction xs with
  | nil => simp [uint64OfBytes]
  | cons x xs ih =>
    have h : uint64OfBytes (x :: xs) = x + 256 * uint64OfBytes xs := rfl
    rw [h, ih, List.length_cons, Finset.sum_range_succ', Finset.mul_sum]
    simp only [List.getD_cons_succ, List.getD_cons_zero, pow_zero, mul_one, pow_succ]
    rw [Nat.add_comm]
    congr 1
    apply Finset.sum_congr rfl
    intro i _
    ring

theorem uint64OfBytes_lt (xs : List Nat) (h : ∀ b ∈ xs, b < 256) :
    uint64OfBytes xs < 256 ^ xs.length := by
  induction xs with
  | nil => simp [uint64OfBytes]
  | cons x xs ih =>
    have hx : x < 256 := h x (List.mem_cons_self x xs)
    have hxs := ih (fun b hb => h b (List.mem_cons_of_mem x hb))
    have e : uint64OfBytes (x :: xs) = x + 256 * uint64OfBytes xs := rfl
    rw [e, List.length_cons, pow_succ]
    nlinarith

theorem canDataValue_eq (frame : can_frame) (hlen : frame.data.length = 8)
    (hdlc : frame.can_dlc ≤ 8) :
    canDataValue frame = some (uint64OfBytes (frame.data.take frame.can_dlc)) := by
  have hm : memcpy CANData_init frame.data frame.can_dlc
      = some (frame.data.take frame.can_dlc ++ List.replicate (8 - frame.can_dlc) 0) := by
    unfold memcpy CANData_init
    rw [if_pos (by simp [hlen, hdlc])]
    have h8 : [0, 0, 0, 0, 0, 0, 0, 0] = List.replicate 8 0 := rfl
    simp only [h8, List.drop_replicate]
  rw [canDataValue, hm, Option.map_some', uint64OfBytes_append_zeros]

/-- Claim C1: for a frame with an 8-byte data buffer and length `L ≤ 8`, the record built
by the capture loop exists and its 64-bit data value is the sum over `i < L` of
`b_i * 256 ^ i`; it is below `2 ^ (8 * L)`, every bit at a position from `8 * L` on is
zero, and a frame that agrees on the first `L` bytes gives the same value whatever its
other buffer bytes are. -/
theorem canData_value_low_bytes (frame : can_frame) (hlen : frame.data.length = 8)
    (hbytes : ∀ b ∈ frame.data, b < 256) (hdlc : frame.can_dlc ≤ 8) :
    ∃ msg, rawUInt64CANFrame frame = some msg ∧
      msg.data = ∑ i in Finset.range frame.can_dlc, frame.data.getD i 0 * 256 ^ i ∧
      msg.data < 2 ^ (8 * frame.can_dlc) ∧
      (∀ k, 8 * frame.can_dlc ≤ k → msg.data.testBit k = false) ∧
      ∀ other : can_frame, other.data.length = 8 → other.can_dlc = frame.can_dlc →
        other.data.take frame.can_dlc = frame.data.take frame.can_dlc →
        (rawUInt64CANFrame other).map (fun m => m.data) = some msg.data := by
  have hv := canDataValue_eq frame hlen hdlc
  have htl : (frame.data.take frame.can_dlc).length = frame.can_dlc := by
    rw [List.length_take, hlen]; omega
  have hlt : uint64OfBytes (frame.data.take frame.can_dlc) < 2 ^ (8 * frame.can_dlc) := by
    have := uint64OfBytes_lt (frame.data.take frame.can_dlc)
      (fun b hb => hbytes b (List.mem_of_mem_take hb))
    rw [htl] at this
    calc _ < 256 ^ frame.can_dlc := this
      _ = 2 ^ (8 * frame.can_dlc) := by rw [pow_mul]; norm_num
  refine ⟨_, by rw [rawUInt64CANFrame, hv]; rfl, ?_, hlt, ?_, ?_⟩
  · show uint64OfBytes (frame.data.take frame.can_dlc) = _
    rw [uint64OfBytes_eq_sum, htl]
    apply Finset.sum_congr rfl
    intro i hi
    have hi' : i < frame.can_dlc := Finset.mem_range.mp hi
    congr 1
    simp [List.getD_eq_getElem?_getD, List.getElem?_take, hi']
  · intro k hk
    apply Nat.testBit_lt_two_pow
    exact lt_of_lt_of_le hlt (Nat.pow_le_pow_right (by norm_num) hk)
  · intro other holen hodlc htake
    have := canDataValue_eq other holen (by omega)
    rw [rawUInt64CANFrame, this, hodlc, htake]
    rfl

/-- Claim C1 at the frame `len=2, [0xAA,0xBB]`: the value is `0xBBAA`; and a frame of
length `0` gives the value `0`. -/
theorem canData_value_low_bytes_witness :
    frameAABB.data.length = 8 ∧ (∀ b ∈ frameAABB.data, b < 256) ∧ frameAABB.can_dlc ≤ 8 ∧
    rawUInt64CANFrame frameAABB = some { canID := 0x100, length := 2, data := 0xBBAA } ∧
    rawUInt64CANFrame frameEmpty = some { canID := 0x200, length := 0, data := 0 } ∧
    ∃ msg, rawUInt64CANFrame frameAABB = some msg ∧
      msg.data = ∑ i in Finset.range frameAABB.can_dlc, frameAABB.data.getD i 0 * 256 ^ i ∧
      msg.data < 2 ^ (8 * frameAABB.can_dlc) ∧
      (∀ k, 8 * frameAABB.can_dlc ≤ k → msg.data.testBit k = false) ∧
      ∀ other : can_frame, other.data.length = 8 → other.can_dlc = frameAABB.can_dlc →
        other.data.take frameAABB.can_dlc = frameAABB.data.take frameAABB.can_dlc →
        (rawUInt64CANFrame other).map (fun m => m.data) = some msg.data :=
  ⟨by decide, by decide, by decide, by decide, by decide,
    canData_value_low_bytes frameAABB (by decide) (by decide) (by decide)⟩

/-! ## The capture loop: routing and one pass over the devices -/

theorem route_effects (lib : Library) (s : RecState) (msg : RawUInt64CANFrame)
    (ts : TimeStamp) (dev : CAN_CHANNEL) (o : ReadOutcome) :
    ((route lib s msg ts dev o).2.countP Effect.toSink
        + (route lib s msg ts dev o).2.countP Effect.toSession = 1) ∧
      ((route lib s msg ts dev o).2.countP Effect.toSink = 1 ↔ s.sinkGood = true) ∧
      ((route lib s msg ts dev o).2.countP Effect.toSession = 1 ↔ s.sinkGood = false) ∧
      (s.sinkGood = true → ∃ f, s.recFile = some f ∧ (route lib s msg ts dev o).2 =
        [Effect.write f.path
          { dataType := lib.RawUInt64CANFrame_ID, serializedData := Payload.encoded msg,
            sent := o.sentNow, sampleTimeStamp := ts, senderStamp := dev.ID },
         Effect.flush f.path]) ∧
      (s.sinkGood = false → (route lib s msg ts dev o).2 = [Effect.send msg ts dev.ID]) := by
  unfold route RecState.sinkGood
  cases hs : s.recFile with
  | none => simp [Effect.toSink, Effect.toSession]
  | some f =>
    cases hg : f.good <;> simp [Effect.toSink, Effect.toSession, hg]

theorem route_emitted (lib : Library) (s : RecState) (msg : RawUInt64CANFrame)
    (ts : TimeStamp) (dev : CAN_CHANNEL) (o : ReadOutcome) :
    (route lib s msg ts dev o).2.filterMap Effect.emitted = [(msg, dev.ID)] := by
  unfold route
  cases hs : s.recFile with
  | none => simp [Effect.emitted]
  | some f => cases hg : f.good <;> simp [Effect.emitted, hg]

theorem processDevice_full (lib : Library) (dev : CAN_CHANNEL) (o : ReadOutcome)
    (s : RecState) (msg : RawUInt64CANFrame) (hfull : fullRead (dev, o) = true)
    (hmsg : rawUInt64CANFrame o.frame = some msg) :
    processDevice lib dev o s = some (route lib s msg (sampleTimeOf o) dev o) := by
  simp only [fullRead, Bool.and_eq_true, decide_eq_true_eq] at hfull
  unfold processDevice
  rw [if_pos hfull.1, if_pos ⟨by rw [hfull.2]; decide, hfull.2⟩, hmsg]
  simp only [sampleTimeOf]
  split <;> rfl

theorem processDevice_skip (lib : Library) (dev : CAN_CHANNEL) (o : ReadOutcome)
    (s : RecState) (hfull : fullRead (dev, o) = false) :
    processDevice lib dev o s = some (s, []) := by
  unfold processDevice
  by_cases h1 : o.isSet = true
  · rw [if_pos h1]
    have : ¬ (o.nbytes > 0 ∧ o.nbytes = sizeofCanFrame) := by
      intro h
      simp [fullRead, h1, h.2] at hfull
    rw [if_neg this]
  · rw [if_neg h1]

/-- Claim C2: for a frame read at full size (with a payload length up to 8) and every
recording state, the loop body produces the record and routes it to exactly one
destination: one write (followed by a flush) of the envelope of the record to the sink if
and only if `recFile && recFile->good()` holds, and otherwise one `send` to the session
with the sender identity of the channel and the sample time stamp. -/
theorem route_exactly_one (lib : Library) (dev : CAN_CHANNEL) (o : ReadOutcome)
    (s : RecState) (hfull : fullRead (dev, o) = true)
    (hframe : o.frame.data.length = 8 ∧ o.frame.can_dlc ≤ 8) :
    ∃ s1 effects msg, processDevice lib dev o s = some (s1, effects) ∧
      rawUInt64CANFrame o.frame = some msg ∧
      effects.countP Effect.toSink + effects.countP Effect.toSession = 1 ∧
      (effects.countP Effect.toSink = 1 ↔ s.sinkGood = true) ∧
      (effects.countP Effect.toSession = 1 ↔ s.sinkGood = false) ∧
      (s.sinkGood = true → ∃ f, s.recFile = some f ∧ effects =
        [Effect.write f.path
          { dataType := lib.RawUInt64CANFrame_ID, serializedData := Payload.encoded msg,
            sent := o.sentNow, sampleTimeStamp := sampleTimeOf o, senderStamp := dev.ID },
         Effect.flush f.path]) ∧
      (s.sinkGood = false → effects = [Effect.send msg (sampleTimeOf o) dev.ID]) := by
  have hv := canDataValue_eq o.frame hframe.1 hframe.2
  obtain ⟨msg, hmsg⟩ : ∃ msg, rawUInt64CANFrame o.frame = some msg :=
    ⟨_, by rw [rawUInt64CANFrame, hv]; rfl⟩
  have hp := processDevice_full lib dev o s msg hfull hmsg
  exact ⟨_, _, msg, hp, hmsg, route_effects lib s msg (sampleTimeOf o) dev o⟩

/-- Claim C2 with an open sink on `a.rec`: the record of the frame `[0xAA,0xBB]` read on
`can0` is written to the sink and not sent. -/
theorem route_exactly_one_witness :
    fullRead (can0, readOf frameAABB) = true ∧
    (frameAABB.data.length = 8 ∧ frameAABB.can_dlc ≤ 8) ∧
    (processDevice specLibrary can0 (readOf frameAABB) (recordingTo "a.rec")).map Prod.snd
      = some [Effect.write "a.rec"
          { dataType := 1105,
            serializedData := Payload.encoded { canID := 0x100, length := 2, data := 0xBBAA },
            sent := t0, sampleTimeStamp := t0, senderStamp := 0 },
         Effect.flush "a.rec"] ∧
    ∃ s1 effects msg,
      processDevice specLibrary can0 (readOf frameAABB) (recordingTo "a.rec")
        = some (s1, effects) ∧
      rawUInt64CANFrame (readOf frameAABB).frame = some msg ∧
      effects.countP Effect.toSink + effects.countP Effect.toSession = 1 ∧
      (effects.countP Effect.toSink = 1 ↔ (recordingTo "a.rec").sinkGood = true) ∧
      (effects.countP Effect.toSession = 1 ↔ (recordingTo "a.rec").sinkGood = false) ∧
      ((recordingTo "a.rec").sinkGood = true →
        ∃ f, (recordingTo "a.rec").recFile = some f ∧ effects =
        [Effect.write f.path
          { dataType := specLibrary.RawUInt64CANFrame_ID,
            serializedData := Payload.encoded msg,
            sent := (readOf frameAABB).sentNow,
            sampleTimeStamp := sampleTimeOf (readOf frameAABB), senderStamp := can0.ID },
         Effect.flush f.path]) ∧
      ((recordingTo "a.rec").sinkGood = false →
        effects = [Effect.send msg (sampleTimeOf (readOf frameAABB)) can0.ID]) :=
  ⟨by decide, by decide, by decide,
    route_exactly_one specLibrary can0 (readOf frameAABB) (recordingTo "a.rec")
      (by decide) (by decide)⟩

/-- Claim C4: one pass over the device list, in which every whole frame read has an
8-byte buffer and a payload length up to 8, runs to its end, and the records it emits (to
the sink or to the session) are, in list order, exactly one for each device that was
ready and whose read returned the whole frame size, each with the identifier and length
of that frame and the sender identity of that device.  A device that was not ready, or
whose read returned another number of bytes, emits nothing. -/
theorem iteration_emits (lib : Library) (l : List (CAN_CHANNEL × ReadOutcome))
    (s : RecState)
    (h : ∀ p ∈ l, fullRead p = true → p.2.frame.data.length = 8 ∧ p.2.frame.can_dlc ≤ 8) :
    ∃ s1 effects, iteration lib l s = some (s1, effects) ∧
      (effects.filterMap Effect.emitted).map (fun r => (r.1.canID, r.1.length, r.2))
        = (l.filter fullRead).map
            (fun p => (p.2.frame.can_id, p.2.frame.can_dlc, p.1.ID)) := by
  induction l generalizing s with
  | nil => exact ⟨s, [], rfl, rfl⟩
  | cons p rest ih =>
    obtain ⟨dev, o⟩ := p
    have hrest : ∀ q ∈ rest, fullRead q = true →
        q.2.frame.data.length = 8 ∧ q.2.frame.can_dlc ≤ 8 :=
      fun q hq => h q (List.mem_cons_of_mem _ hq)
    cases hf : fullRead (dev, o) with
    | false =>
      obtain ⟨s1, effects, hit, hem⟩ := ih s hrest
      refine ⟨s1, effects, ?_, ?_⟩
      · simp only [iteration, processDevice_skip lib dev o s hf, hit, List.nil_append]
      · rw [List.filter_cons_of_neg (by simp [hf])]
        exact hem
    | true =>
      have hb := h (dev, o) (List.mem_cons_self _ _) hf
      have hv := canDataValue_eq o.frame hb.1 hb.2
      obtain ⟨msg, hmsg, hid, hlen⟩ : ∃ msg, rawUInt64CANFrame o.frame = some msg ∧
          msg.canID = o.frame.can_id ∧ msg.length = o.frame.can_dlc :=
        ⟨_, by rw [rawUInt64CANFrame, hv]; rfl, rfl, rfl⟩
      have hp := processDevice_full lib dev o s msg hf hmsg
      obtain ⟨s1, effects, hit, hem⟩ := ih (route lib s msg (sampleTimeOf o) dev o).1 hrest
      refine ⟨s1, (route lib s msg (sampleTimeOf o) dev o).2 ++ effects, ?_, ?_⟩
      · simp only [iteration, hp, hit]
      · rw [List.filterMap_append, route_emitted, List.filter_cons_of_pos (by simp [hf]),
          List.map_append, hem]
        simp only [List.map_cons, List.map_nil, List.singleton_append, hid, hlen]

/-- Claim C4 for `can0:0,can1:1` with the frames `(0x100, 2, [0xAA,0xBB])` and
`(0x200, 0)` ready in one pass and no sink: two messages are sent, with identifiers
`0x100` and `0x200`, sender stamps `0` and `1` and values `0xBBAA` and `0`. -/
theorem iteration_emits_witness :
    (∀ p ∈ [(can0, readOf frameAABB), (can1, readOf frameEmpty)], fullRead p = true →
      p.2.frame.data.length = 8 ∧ p.2.frame.can_dlc ≤ 8) ∧
    iteration specLibrary [(can0, readOf frameAABB), (can1, readOf frameEmpty)] noRecording
      = some (noRecording,
          [Effect.send { canID := 0x100, length := 2, data := 0xBBAA } t0 0,
           Effect.send { canID := 0x200, length := 0, data := 0 } t0 1]) ∧
    ∃ s1 effects,
      iteration specLibrary [(can0, readOf frameAABB), (can1, readOf frameEmpty)] noRecording
        = some (s1, effects) ∧
      (effects.filterMap Effect.emitted).map (fun r => (r.1.canID, r.1.length, r.2))
        = ([(can0, readOf frameAABB), (can1, readOf frameEmpty)].filter fullRead).map
            (fun p => (p.2.frame.can_id, p.2.frame.can_dlc, p.1.ID)) :=
  ⟨by decide, by decide,
    iteration_emits specLibrary [(can0, readOf frameAABB), (can1, readOf frameEmpty)]
      noRecording (by decide)⟩

/-! ## Channel endpoint setup -/

theorem onDescriptor_valid (fd answer : Int) (h : 0 ≤ fd) : onDescriptor fd answer = answer := by
  rw [onDescriptor, if_neg (not_lt.mpr h)]

/-- The guard on the device name (line 154): with a splitter that keeps empty tokens the
entry `:5` has two tokens, the empty device name and the integer `5`, and the setup
finishes without an endpoint for it; with a splitter that leaves empty tokens out the
entry has one token and is skipped as malformed. -/
theorem empty_device_name_skipped :
    (specLibrary.split (":5" ++ ",") ',').filterMap (claimedEndpoint specLibrary)
        = [("", 5)] ∧
      setup specLibrary allSucceed ":5" = SetupResult.done [] (-1) ∧
      (specLibraryNonEmpty.split (":5" ++ ",") ',').filterMap
        (claimedEndpoint specLibraryNonEmpty) = [] ∧
      setup specLibraryNonEmpty allSucceed ":5" = SetupResult.done [] (-1) := by
  decide

/-- The three error paths: an entry of two tokens with an integer sender identity and a
device name of 1 to 15 bytes makes the setup return `retCode = 1` at that entry when
`socket` fails, when `ioctl(SIOCGIFINDEX)` fails or when `bind` fails, whatever the other
calls answer and whatever follows in the list.  After a failed `socket` it is the `ioctl`
on the invalid descriptor that fails and returns. -/
theorem setupLoop_failure_returns (lib : Library) (os : Nat → OpenOutcome)
    (e : String) (rest : List String) (acc : List CAN_CHANNEL) (maxfd : Int)
    (name id : String) (v : Int) (hsp : lib.split e ':' = [name, id])
    (hv : stoi id = some v) (hname : name ≠ "") (hfit : c_strlen name < IFNAMSIZ)
    (hfail : (os acc.length).socket < 0 ∨ (os acc.length).ioctl ≠ 0
      ∨ (os acc.length).bind < 0) :
    setupLoop lib os (e :: rest) acc maxfd = SetupResult.returned 1 := by
  have hlen : ¬ (IFNAMSIZ < c_strlen name + 1) := by omega
  rw [setupLoop.eq_2]
  simp only [hsp, hv, if_pos hname, if_neg hlen]
  by_cases hsock : (os acc.length).socket < 0
  · have h1 : onDescriptor (os acc.length).socket (os acc.length).ioctl = -1 := by
      rw [onDescriptor, if_pos hsock]
    rw [h1, if_pos (by decide)]; rfl
  · have hs : 0 ≤ (os acc.length).socket := not_lt.mp hsock
    rw [onDescriptor_valid _ _ hs, onDescriptor_valid _ _ hs]
    by_cases hio : (0 : Int) ≠ (os acc.length).ioctl
    · rw [if_pos hio]; rfl
    · rw [if_neg hio]
      have hb : (os acc.length).bind < 0 := by
        rcases hfail with h | h | h
        · exact absurd h hsock
        · exact absurd (fun h0 : (0 : Int) = (os acc.length).ioctl => h h0.symm) hio
        · exact h
      rw [if_pos hb]; rfl

/-- Claim C5, amended: handling a control message with command `1` always ends with the
new stream as `recFile` and the new name as `nameOfRecFile`.  In a state whose sink
`fileA` is good (`recFile->good()`) it performs, in this order, the flush of `fileA`, the
close of `fileA` and then the truncating open of the new file.  In a state whose sink is
open but no longer good it performs no flush: the new file is opened first and `fileA`
is closed after it, by the destruction of its stream; a sink that is neither good nor
open causes only the open.  In a state without a sink it performs only the open. -/
theorem start_command_effects (lib : Library) (REC RECSUFFIX : String)
    (envelope : Envelope) (o : CallbackOutcome) (s : RecState)
    (htype : lib.RecorderCommand_ID = envelope.dataType)
    (hcmd : lib.extractCommand envelope = 1) :
    (callback lib REC RECSUFFIX envelope o s).1
        = { recFile := some (FStream.create (recFileName REC RECSUFFIX o.localtime) o.openOk),
            nameOfRecFile := recFileName REC RECSUFFIX o.localtime } ∧
      (∀ fileA : FStream, s.recFile = some fileA → fileA.good = true →
        (callback lib REC RECSUFFIX envelope o s).2 =
          [Effect.flush fileA.path, Effect.close fileA.path,
           Effect.openTrunc (recFileName REC RECSUFFIX o.localtime)]) ∧
      (∀ fileA : FStream, s.recFile = some fileA → fileA.good = false →
        fileA.isOpen = true →
        (callback lib REC RECSUFFIX envelope o s).2 =
          [Effect.openTrunc (recFileName REC RECSUFFIX o.localtime),
           Effect.close fileA.path]) ∧
      (∀ fileA : FStream, s.recFile = some fileA → fileA.good = false →
        fileA.isOpen = false →
        (callback lib REC RECSUFFIX envelope o s).2 =
          [Effect.openTrunc (recFileName REC RECSUFFIX o.localtime)]) ∧
      (s.recFile = none →
        (callback lib REC RECSUFFIX envelope o s).2 =
          [Effect.openTrunc (recFileName REC RECSUFFIX o.localtime)]) := by
  refine ⟨?_, ?_, ?_, ?_, ?_⟩
  · cases hs : s.recFile with
    | none => simp [callback, htype, hcmd, hs]
    | some f => cases hg : f.good <;> simp [callback, htype, hcmd, hs, hg]
  · intro fileA hA hgood
    simp [callback, htype, hcmd, hA, hgood, destroy]
  · intro fileA hA hgood hopen
    simp [callback, htype, hcmd, hA, hgood, hopen, destroy]
  · intro fileA hA hgood hopen
    simp [callback, htype, hcmd, hA, hgood, hopen, destroy]
  · intro hnone
    simp [callback, htype, hcmd, hnone, destroy]

/-- Claim C5, amended, with a start command handled at local time 2024-03-01 10:05:03 and
no base name: in the state recording to `a.rec`, in the state whose sink on `a.rec` is
open and no longer good, and in the state without a sink. -/
theorem start_command_effects_witness :
    specLibrary.RecorderCommand_ID = (controlEnvelope 1).dataType ∧
    specLibrary.extractCommand (controlEnvelope 1) = 1 ∧
    callback specLibrary "" "" (controlEnvelope 1) atTenOhFive (recordingTo "a.rec") =
      (recordingTo "2024-03-01_100503.rec",
        [Effect.flush "a.rec", Effect.close "a.rec",
         Effect.openTrunc "2024-03-01_100503.rec"]) ∧
    callback specLibrary "" "" (controlEnvelope 1) atTenOhFive noRecording =
      (recordingTo "2024-03-01_100503.rec", [Effect.openTrunc "2024-03-01_100503.rec"]) ∧
    (callback specLibrary "" "" (controlEnvelope 1) atTenOhFive (failedSink "a.rec")).2 =
      [Effect.openTrunc (recFileName "" "" atTenOhFive.localtime), Effect.close "a.rec"] ∧
    (callback specLibrary "" "" (controlEnvelope 1) atTenOhFive (recordingTo "a.rec")).1
      = { recFile := some (FStream.create (recFileName "" "" atTenOhFive.localtime)
            atTenOhFive.openOk),
          nameOfRecFile := recFileName "" "" atTenOhFive.localtime } :=
  ⟨by decide, by decide, by decide, by decide,
    (start_command_effects specLibrary "" "" (controlEnvelope 1) atTenOhFive
      (failedSink "a.rec") (by decide) (by decide)).2.2.1 _ rfl rfl rfl,
    (start_command_effects specLibrary "" "" (controlEnvelope 1) atTenOhFive
      (recordingTo "a.rec") (by decide) (by decide)).1⟩

/-- Claim C5 as stated fails in a state whose sink is open but no longer good.  Such a
state is reached from recording to `a.rec` by a pass-through write that fails.  A start
command then opens the new file first and closes `a.rec` after it, and performs no
flush. -/
theorem start_on_failed_sink_skips_flush :
    callback specLibrary "" "" otherEnvelope writeFails (recordingTo "a.rec")
        = (failedSink "a.rec",
            [Effect.write "a.rec" otherEnvelope, Effect.flush "a.rec"]) ∧
      callback specLibrary "" "" (controlEnvelope 1) atTenOhFive (failedSink "a.rec")
        = (recordingTo "2024-03-01_100503.rec",
            [Effect.openTrunc "2024-03-01_100503.rec", Effect.close "a.rec"]) := by
  decide

/-- Claim C6, amended: handling a control message with command `2` always ends without a
sink and with `nameOfRecFile` unchanged.  A sink that is good (`recFile->good()`) is
flushed and closed first.  A sink that is open but no longer good is closed without a
flush, by the destruction of its stream; a sink that is neither good nor open causes no
file operation.  In a state without a sink nothing changes and no file operation is
performed; and a second stop after a stop changes nothing and performs no file
operation. -/
theorem stop_command_effects (lib : Library) (REC RECSUFFIX : String) (envelope : Envelope)
    (o : CallbackOutcome) (s : RecState)
    (htype : lib.RecorderCommand_ID = envelope.dataType)
    (hcmd : lib.extractCommand envelope = 2) :
    (callback lib REC RECSUFFIX envelope o s).1
        = { recFile := none, nameOfRecFile := s.nameOfRecFile } ∧
      (∀ f : FStream, s.recFile = some f → f.good = true →
        (callback lib REC RECSUFFIX envelope o s).2
          = [Effect.flush f.path, Effect.close f.path]) ∧
      (∀ f : FStream, s.recFile = some f → f.good = false → f.isOpen = true →
        (callback lib REC RECSUFFIX envelope o s).2 = [Effect.close f.path]) ∧
      (∀ f : FStream, s.recFile = some f → f.good = false → f.isOpen = false →
        (callback lib REC RECSUFFIX envelope o s).2 = []) ∧
      (s.recFile = none → callback lib REC RECSUFFIX envelope o s = (s, [])) ∧
      (∀ o2 : CallbackOutcome,
        callback lib REC RECSUFFIX envelope o2 (callback lib REC RECSUFFIX envelope o s).1
          = ((callback lib REC RECSUFFIX envelope o s).1, [])) := by
  have h1 : (callback lib REC RECSUFFIX envelope o s).1
      = { recFile := none, nameOfRecFile := s.nameOfRecFile } := by
    cases hs : s.recFile with
    | none => simp [callback, htype, hcmd, hs]
    | some f => cases hg : f.good <;> simp [callback, htype, hcmd, hs, hg]
  refine ⟨h1, ?_, ?_, ?_, ?_, ?_⟩
  · intro f hf hg
    simp [callback, htype, hcmd, hf, hg]
  · intro f hf hg hopen
    simp [callback, htype, hcmd, hf, hg, hopen, destroy]
  · intro f hf hg hopen
    simp [callback, htype, hcmd, hf, hg, hopen, destroy]
  · intro hnone
    obtain ⟨r, n⟩ := s
    simp only at hnone
    subst hnone
    simp [callback, htype, hcmd]
  · intro o2
    rw [h1]
    simp [callback, htype, hcmd]

/-- Claim C6, amended, with a stop command: in the state recording to `a.rec`, in the
state whose sink on `a.rec` is open and no longer good, and in the state without a
sink. -/
theorem stop_command_effects_witness :
    specLibrary.RecorderCommand_ID = (controlEnvelope 2).dataType ∧
    specLibrary.extractCommand (controlEnvelope 2) = 2 ∧
    callback specLibrary "" "" (controlEnvelope 2) atTenOhFive (recordingTo "a.rec")
      = ({ recFile := none, nameOfRecFile := "a.rec" },
          [Effect.flush "a.rec", Effect.close "a.rec"]) ∧
    callback specLibrary "" "" (controlEnvelope 2) atTenOhFive noRecording
      = (noRecording, []) ∧
    (callback specLibrary "" "" (controlEnvelope 2) atTenOhFive (failedSink "a.rec")).2
      = [Effect.close "a.rec"] ∧
    (callback specLibrary "" "" (controlEnvelope 2) atTenOhFive (recordingTo "a.rec")).1
      = { recFile := none, nameOfRecFile := (recordingTo "a.rec").nameOfRecFile } :=
  ⟨by decide, by decide, by decide, by decide,
    (stop_command_effects specLibrary "" "" (controlEnvelope 2) atTenOhFive
      (failedSink "a.rec") (by decide) (by decide)).2.2.1 _ rfl rfl rfl,
    (stop_command_effects specLibrary "" "" (controlEnvelope 2) atTenOhFive
      (recordingTo "a.rec") (by decide) (by decide)).1⟩

/-- Claim C6 as stated fails in a state whose sink is open but no longer good, reached
from recording to `a.rec` by a pass-through write that fails: a stop command closes
`a.rec` and performs no flush. -/
theorem stop_on_failed_sink_skips_flush :
    callback specLibrary "" "" otherEnvelope writeFails (recordingTo "a.rec")
        = (failedSink "a.rec",
            [Effect.write "a.rec" otherEnvelope, Effect.flush "a.rec"]) ∧
      callback specLibrary "" "" (controlEnvelope 2) atTenOhFive (failedSink "a.rec")
        = ({ recFile := none, nameOfRecFile := "a.rec" }, [Effect.close "a.rec"]) := by
  decide

theorem toUInt32_natCast (n : Nat) (h : n < 4294967296) : toUInt32 (n : Int) = n := by
  unfold toUInt32
  omega

theorem toDigits_one (n : Nat) (h : n < 10) : Nat.toDigits 10 n = [Nat.digitChar n] := by
  unfold Nat.toDigits
  rw [Nat.toDigitsCore]
  simp only [Nat.mod_eq_of_lt h, Nat.div_eq_of_lt h, if_true]

theorem toDigits_two (n : Nat) (h1 : 10 ≤ n) (h2 : n < 100) :
    Nat.toDigits 10 n = [Nat.digitChar (n / 10), Nat.digitChar (n % 10)] := by
  unfold Nat.toDigits
  have e : n + 1 = (n - 1) + 2 := by omega
  rw [e, Nat.toDigitsCore, Nat.toDigitsCore]
  have a : n / 10 ≠ 0 := by omega
  have b : n / 10 / 10 = 0 := by omega
  have c : n / 10 % 10 = n / 10 := by omega
  simp only [a, b, c, if_true, if_false]

theorem toDigits_four (n : Nat) (h1 : 1000 ≤ n) (h2 : n < 10000) :
    Nat.toDigits 10 n = [Nat.digitChar (n / 1000), Nat.digitChar (n / 100 % 10),
      Nat.digitChar (n / 10 % 10), Nat.digitChar (n % 10)] := by
  unfold Nat.toDigits
  have e : n + 1 = (n - 3) + 4 := by omega
  rw [e, Nat.toDigitsCore, Nat.toDigitsCore, Nat.toDigitsCore, Nat.toDigitsCore]
  have a : n / 10 ≠ 0 := by omega
  have b : n / 10 / 10 ≠ 0 := by omega
  have c : n / 10 / 10 / 10 ≠ 0 := by omega
  have d : n / 10 / 10 / 10 / 10 = 0 := by omega
  have f : n / 10 / 10 % 10 = n / 100 % 10 := by omega
  have g : n / 10 / 10 / 10 % 10 = n / 1000 := by omega
  simp only [a, b, c, d, if_true, if_false, f, g]

theorem pad_two (n : Nat) (h : n < 100) :
    ((if n < 10 then "0" else "") ++ toString n).data
      = [Nat.digitChar (n / 10), Nat.digitChar (n % 10)] := by
  show ((if n < 10 then "0" else "") ++ Nat.repr n).data = _
  rw [String.data_append, Nat.repr]
  by_cases hn : n < 10
  · rw [if_pos hn, toDigits_one n hn]
    have a : n / 10 = 0 := by omega
    have b : n % 10 = n := by omega
    rw [a, b]
    rfl
  · rw [if_neg hn, toDigits_two n (by omega) h]
    rfl

theorem pad_two_append (n : Nat) (h : n < 100) (rest : List Char) :
    (if n < 10 then "0" else "").data ++ ((toString n).data ++ rest)
      = Nat.digitChar (n / 10) :: Nat.digitChar (n % 10) :: rest := by
  have e := pad_two n h
  rw [String.data_append] at e
  rw [← List.append_assoc, e]
  rfl

theorem getYYYYMMDD_HHMMSS_data (year month day hours minutes seconds : Nat)
    (hy : 1000 ≤ year ∧ year ≤ 9999) (hm : 1 ≤ month ∧ month ≤ 12)
    (hd : 1 ≤ day ∧ day ≤ 31) (hh : hours ≤ 23) (hmin : minutes ≤ 59) (hs : seconds ≤ 59) :
    (getYYYYMMDD_HHMMSS (localTime year month day hours minutes seconds)).data =
      [Nat.digitChar (year / 1000), Nat.digitChar (year / 100 % 10),
       Nat.digitChar (year / 10 % 10), Nat.digitChar (year % 10), '-',
       Nat.digitChar (month / 10), Nat.digitChar (month % 10), '-',
       Nat.digitChar (day / 10), Nat.digitChar (day % 10), '_',
       Nat.digitChar (hours / 10), Nat.digitChar (hours % 10),
       Nat.digitChar (minutes / 10), Nat.digitChar (minutes % 10),
       Nat.digitChar (seconds / 10), Nat.digitChar (seconds % 10)] := by
  have ey : toUInt32 (1900 + ((year : Int) - 1900)) = year := by
    have : (1900 : Int) + ((year : Int) - 1900) = (year : Int) := by ring
    rw [this]; exact toUInt32_natCast year (by omega)
  have em : toUInt32 (1 + ((month : Int) - 1)) = month := by
    have : (1 : Int) + ((month : Int) - 1) = (month : Int) := by ring
    rw [this]; exact toUInt32_natCast month (by omega)
  have ed := toUInt32_natCast day (by omega)
  have eh := toUInt32_natCast hours (by omega)
  have emin := toUInt32_natCast minutes (by omega)
  have es := toUInt32_natCast seconds (by omega)
  have hyear : (toString year).data = [Nat.digitChar (year / 1000),
      Nat.digitChar (year / 100 % 10), Nat.digitChar (year / 10 % 10),
      Nat.digitChar (year % 10)] := by
    show (Nat.repr year).data = _
    rw [Nat.repr, toDigits_four year hy.1 (by omega)]
    rfl
  simp only [getYYYYMMDD_HHMMSS, localTime, ey, em, ed, eh, emin, es]
  simp only [String.append_assoc, String.data_append, hyear,
    pad_two_append month (by omega), pad_two_append day (by omega),
    pad_two_append hours (by omega), pad_two_append minutes (by omega),
    pad_two seconds (by omega)]
  rfl

theorem callback_start_name (lib : Library) (REC RECSUFFIX : String) (envelope : Envelope)
    (o : CallbackOutcome) (s : RecState)
    (htype : lib.RecorderCommand_ID = envelope.dataType)
    (hcmd : lib.extractCommand envelope = 1) :
    (callback lib REC RECSUFFIX envelope o s).1.nameOfRecFile
      = recFileName REC RECSUFFIX o.localtime := by
  simp [callback, htype, hcmd]

/-- Claim C7: the file name computed when a start command is handled is the base name
followed by the suffix when a base name is configured, and otherwise the formatted local
time followed by the suffix and `.rec`.  For a local time with a four-digit year, month
1..12, day 1..31, hour 0..23, minute and second 0..59 the formatted time has exactly 17
characters: the four digits of the year, `-`, two digits of the month, `-`, two digits of
the day, `_`, and two digits each of hour, minute and second.  The name does not depend
on the recording state, so two starts at the same local time compute the same name. -/
theorem recFileName_on_start (lib : Library) (REC RECSUFFIX : String) (envelope : Envelope)
    (o : CallbackOutcome) (s : RecState) (year month day hours minutes seconds : Nat)
    (htype : lib.RecorderCommand_ID = envelope.dataType)
    (hcmd : lib.extractCommand envelope = 1)
    (htime : o.localtime = localTime year month day hours minutes seconds)
    (hy : 1000 ≤ year ∧ year ≤ 9999) (hm : 1 ≤ month ∧ month ≤ 12)
    (hd : 1 ≤ day ∧ day ≤ 31) (hh : hours ≤ 23) (hmin : minutes ≤ 59) (hs : seconds ≤ 59) :
    (callback lib REC RECSUFFIX envelope o s).1.nameOfRecFile
        = recFileName REC RECSUFFIX o.localtime ∧
      (REC ≠ "" → recFileName REC RECSUFFIX o.localtime = REC ++ RECSUFFIX) ∧
      (REC = "" → recFileName REC RECSUFFIX o.localtime
        = getYYYYMMDD_HHMMSS o.localtime ++ RECSUFFIX ++ ".rec") ∧
      (getYYYYMMDD_HHMMSS o.localtime).length = 17 ∧
      (getYYYYMMDD_HHMMSS o.localtime).data =
        [Nat.digitChar (year / 1000), Nat.digitChar (year / 100 % 10),
         Nat.digitChar (year / 10 % 10), Nat.digitChar (year % 10), '-',
         Nat.digitChar (month / 10), Nat.digitChar (month % 10), '-',
         Nat.digitChar (day / 10), Nat.digitChar (day % 10), '_',
         Nat.digitChar (hours / 10), Nat.digitChar (hours % 10),
         Nat.digitChar (minutes / 10), Nat.digitChar (minutes % 10),
         Nat.digitChar (seconds / 10), Nat.digitChar (seconds % 10)] ∧
      (∀ s2 : RecState, (callback lib REC RECSUFFIX envelope o s2).1.nameOfRecFile
        = (callback lib REC RECSUFFIX envelope o s).1.nameOfRecFile) := by
  have hdata := getYYYYMMDD_HHMMSS_data year month day hours minutes seconds hy hm hd hh hmin hs
  rw [← htime] at hdata
  refine ⟨callback_start_name lib REC RECSUFFIX envelope o s htype hcmd, ?_, ?_, ?_, hdata, ?_⟩
  · intro hrec
    rw [recFileName, if_pos hrec]
  · intro hrec
    rw [recFileName, if_neg (not_not.mpr hrec)]
  · rw [String.length, hdata]
    rfl
  · intro s2
    rw [callback_start_name lib REC RECSUFFIX envelope o s2 htype hcmd,
      callback_start_name lib REC RECSUFFIX envelope o s htype hcmd]

/-- Claim C7 at a start command with no base name and an empty suffix at local time
2024-03-01 10:05:03: the name is `2024-03-01_100503.rec`, and a start in the state the
first start left computes the same name. -/
theorem recFileName_on_start_witness :
    specLibrary.RecorderCommand_ID = (controlEnvelope 1).dataType ∧
    specLibrary.extractCommand (controlEnvelope 1) = 1 ∧
    atTenOhFive.localtime = localTime 2024 3 1 10 5 3 ∧
    recFileName "" "" atTenOhFive.localtime = "2024-03-01_100503.rec" ∧
    recFileName "rec" "-a" atTenOhFive.localtime = "rec-a" ∧
    (callback specLibrary "" "" (controlEnvelope 1) atTenOhFive
      (callback specLibrary "" "" (controlEnvelope 1) atTenOhFive noRecording).1).1.nameOfRecFile
      = "2024-03-01_100503.rec" ∧
    (callback specLibrary "" "" (controlEnvelope 1) atTenOhFive noRecording).1.nameOfRecFile
      = recFileName "" "" atTenOhFive.localtime ∧
    (getYYYYMMDD_HHMMSS atTenOhFive.localtime).length = 17 :=
  have h := recFileName_on_start specLibrary "" "" (controlEnvelope 1) atTenOhFive noRecording
    2024 3 1 10 5 3 (by decide) (by decide) rfl (by decide) (by decide) (by decide)
    (by decide) (by decide) (by decide)
  ⟨by decide, by decide, rfl, by decide, by decide, by decide, h.1, h.2.2.2.1⟩

/-! ## Start-up: which configurations hand inbound messages to the delegate -/

/-- Without the option `--remote` and with a recording file name the file is opened at
start-up, the session is created without the delegate, and no inbound message changes
the recording state or causes a file operation. -/
theorem fixed_recording_keeps_sink (lib : Library) (cfg : Config) (tm : Tm) (openOk : Bool)
    (hremote : cfg.REMOTE = false) (hrec : cfg.REC ≠ "") :
    startup cfg tm openOk
        = ({ recFile := some (FStream.create (cfg.REC ++ cfg.RECSUFFIX) openOk),
             nameOfRecFile := "" }, false, [Effect.openTrunc (cfg.REC ++ cfg.RECSUFFIX)]) ∧
      ∀ (envelope : Envelope) (o : CallbackOutcome) (s : RecState),
        onEnvelope lib cfg (startup cfg tm openOk).2.1 envelope o s = (s, []) := by
  have h : startup cfg tm openOk
      = ({ recFile := some (FStream.create (cfg.REC ++ cfg.RECSUFFIX) openOk),
           nameOfRecFile := "" }, false, [Effect.openTrunc (cfg.REC ++ cfg.RECSUFFIX)]) := by
    rw [startup, if_pos ⟨hremote, hrec⟩]
    simp only [recFileName, if_pos hrec]
  refine ⟨h, ?_⟩
  intro envelope o s
  rw [h]
  rfl

/-- In every other configuration the session is created with the delegate and the
process starts without a sink. -/
theorem delegate_registered (cfg : Config) (tm : Tm) (openOk : Bool)
    (h : cfg.REMOTE = true ∨ cfg.REC = "") :
    startup cfg tm openOk = ({ recFile := none, nameOfRecFile := "" }, true, []) := by
  have hn : ¬ (cfg.REMOTE = false ∧ cfg.REC ≠ "") := by
    rintro ⟨h1, h2⟩
    rcases h with h | h
    · rw [h1] at h; cases h
    · exact h2 h
  rw [startup, if_neg hn]

/-- Claim C8 fails on the code without the option `--remote` and without a recording file
name: the session is created with the delegate, and a control message with command `1`
takes the process from no sink to recording into `2024-03-01_100503.rec`; a following
command `2` closes that sink again. -/
theorem commands_handled_without_remote_flag :
    plainConfig.REMOTE = false ∧ plainConfig.REC = "" ∧
      startup plainConfig (localTime 2024 3 1 10 5 0) true = (noRecording, true, []) ∧
      onEnvelope specLibrary plainConfig
          (startup plainConfig (localTime 2024 3 1 10 5 0) true).2.1
          (controlEnvelope 1) atTenOhFive noRecording
        = (recordingTo "2024-03-01_100503.rec",
            [Effect.openTrunc "2024-03-01_100503.rec"]) ∧
      onEnvelope specLibrary plainConfig
          (startup plainConfig (localTime 2024 3 1 10 5 0) true).2.1
          (controlEnvelope 2) atTenOhFive (recordingTo "2024-03-01_100503.rec")
        = ({ recFile := none, nameOfRecFile := "2024-03-01_100503.rec" },
            [Effect.flush "2024-03-01_100503.rec", Effect.close "2024-03-01_100503.rec"]) := by
  decide

end CanRaw
